import Mathlib

/-!
Verification of the boundary-search scaling engine of `acdc_dispatch`
(`acdc_dispatch/data_processing.py`), as a shallow embedding in Lean 4.

Modelling conventions:
* Python floats are idealised as exact rationals (`ℚ`); "within
  floating-point tolerance" in the specification becomes exact equality.
* The power-flow oracle (`power_flow(grid).results.converged`) is an opaque
  Boolean function of the mutated state `(loadP, loadQ, gen)` of load `9_1`
  and generator `1_1`.
* `while True` loops become fuel-indexed recursion; `none` on fuel
  exhaustion means the loop did not stop within the given fuel.
* A Python `UnboundLocalError` at a `return` (a variable that was assigned
  on no loop iteration) is modelled by the `load_h` field still being
  `none` when the loop breaks, and the overall result being `none`.
* `np.linalg.solve` on a 3×3 system is modelled by Cramer's rule over `ℚ`,
  raising (returning `Except.error`) exactly when the matrix is singular,
  which is numpy's behaviour on an exactly singular matrix.
-/

namespace AcdcDispatch

/-- State of the probing loop in `find_extreme_points`
(`data_processing.py`, lines 37-63).  `load_h` is `none` while the Python
local variable `load_h` is still unassigned; `calls` counts oracle calls. -/
structure LoopState where
  loadP : ℚ
  loadQ : ℚ
  gen : ℚ
  load_h : Option ℚ
  calls : ℕ
  deriving DecidableEq, Repr

/-- One generation update of the probing loop: `if gen < 9999: gen += step`
(`data_processing.py`, lines 41-42), with the ceiling and step as
parameters. -/
def genStep (step ceil g : ℚ) : ℚ :=
  if g < ceil then g + step else g

/-- Unfolding of `genStep` at an argument. -/
theorem genStep_def (step ceil g : ℚ) :
    genStep step ceil g = if g < ceil then g + step else g := rfl

/-- The `while True` probing loop of `find_extreme_points`
(`data_processing.py`, lines 37-63), fuel-indexed.  Each iteration adds
`step` to `loadP` and `loadQ`, conditionally to `gen`, calls the oracle,
and on non-convergence rolls all three back by one `step` and breaks;
on convergence it records `load_h := loadP` and continues. -/
def probe_loop (oracle : ℚ → ℚ → ℚ → Bool) (step ceil : ℚ) :
    ℕ → LoopState → Option LoopState
  | 0, _ => none
  | n + 1, st =>
    if oracle (st.loadP + step) (st.loadQ + step) (genStep step ceil st.gen) then
      probe_loop oracle step ceil n
        ⟨st.loadP + step, st.loadQ + step, genStep step ceil st.gen,
         some (st.loadP + step), st.calls + 1⟩
    else
      some ⟨st.loadP + step - step, st.loadQ + step - step,
            genStep step ceil st.gen - step, st.load_h, st.calls + 1⟩

/-- The dictionary returned by `find_extreme_points`
(`data_processing.py`, line 66): `(base, high, no_transfer)` where
`base = loadP₀`, `high = load_h` and `no_transfer = 1500`.  The result is
`none` when the loop never stops within the fuel, or when `load_h` was
never assigned (the Python code raises `UnboundLocalError` at the
`return` in that case). -/
def find_extreme_result (oracle : ℚ → ℚ → ℚ → Bool) (step ceil : ℚ)
    (fuel : ℕ) (loadP0 loadQ0 gen0 : ℚ) : Option (ℚ × ℚ × ℚ) :=
  (probe_loop oracle step ceil fuel ⟨loadP0, loadQ0, gen0, none, 0⟩).bind
    fun st => st.load_h.map fun h => (loadP0, h, 1500)

/-- One-step unfolding of `probe_loop` at positive fuel. -/
theorem probe_loop_succ (oracle : ℚ → ℚ → ℚ → Bool) (step ceil : ℚ)
    (n : ℕ) (st : LoopState) :
    probe_loop oracle step ceil (n + 1) st =
      if oracle (st.loadP + step) (st.loadQ + step) (genStep step ceil st.gen) then
        probe_loop oracle step ceil n
          ⟨st.loadP + step, st.loadQ + step, genStep step ceil st.gen,
           some (st.loadP + step), st.calls + 1⟩
      else
        some ⟨st.loadP + step - step, st.loadQ + step - step,
              genStep step ceil st.gen - step, st.load_h, st.calls + 1⟩ := rfl

/-- Full characterisation of the probing loop run against an oracle that
converges exactly below a divergence load `D` reachable in `n` whole steps:
the loop stops with fuel `n`, having made `n` oracle calls, with the load
rolled back to `D - step`, the generation rolled back by one unconditional
`step` from its `n`-fold conditional advance, and `load_h` holding the last
converged load `D - step` (or still its initial value when the very first
probe diverges, `n = 1`). -/
theorem probe_loop_diverge (oracle : ℚ → ℚ → ℚ → Bool) (D step ceil : ℚ)
    (horacle : ∀ l q g, oracle l q g = decide (l < D)) (hstep : 0 < step) :
    ∀ n : ℕ, 1 ≤ n → ∀ (p q g : ℚ) (h0 : Option ℚ) (c : ℕ), p + n * step = D →
      probe_loop oracle step ceil n ⟨p, q, g, h0, c⟩ =
        some ⟨D - step, q + n * step - step, (genStep step ceil)^[n] g - step,
              if n = 1 then h0 else some (D - step), c + n⟩ := by
  intro n
  induction n with
  | zero => omega
  | succ m ih =>
    intro _ p q g h0 c hD
    match m, ih with
    | 0, _ =>
      have hp : p + step = D := by push_cast at hD; linarith
      have hcond : oracle (p + step) (q + step) (genStep step ceil g) = false := by
        rw [horacle, hp]; simp
      rw [probe_loop_succ]
      simp only [hcond, Bool.false_eq_true, if_false, Option.some.injEq,
        LoopState.mk.injEq]
      refine ⟨by linarith, by push_cast; ring, by rw [Function.iterate_one],
        by simp, trivial⟩
    | m' + 1, ih =>
      have hm : (1 : ℕ) ≤ m' + 1 := by omega
      have hstep' : (0 : ℚ) < ((m' + 1 : ℕ) : ℚ) * step := by
        have h1 : (0 : ℚ) < ((m' + 1 : ℕ) : ℚ) := by positivity
        positivity
      have hconv : p + step < D := by
        push_cast at hD hstep' ⊢; nlinarith
      have hD' : (p + step) + ((m' + 1 : ℕ) : ℚ) * step = D := by
        push_cast at hD ⊢; linarith
      have hcond : oracle (p + step) (q + step) (genStep step ceil g) = true := by
        rw [horacle]; exact decide_eq_true hconv
      rw [probe_loop_succ]
      simp only [hcond, if_true]
      rw [ih hm (p + step) (q + step) (genStep step ceil g) (some (p + step)) (c + 1) hD']
      simp only [Option.some.injEq, LoopState.mk.injEq]
      refine ⟨trivial, by push_cast; ring,
        by simp only [Function.iterate_succ_apply], ?_, by omega⟩
      rcases Nat.eq_zero_or_pos m' with hm0 | hm0
      · subst hm0
        have hp2 : p + step = D - step := by push_cast at hD; linarith
        simp [hp2]
      · have h1 : m' + 1 ≠ 1 := by omega
        have h2 : m' + 1 + 1 ≠ 1 := by omega
        simp [h1, h2]

/-- C2 (amended): for every start, every positive step and every oracle
first non-convergent at `D = start + k·step` with `k ≥ 2` (so that at least
one probe converges), the probing loop of `find_extreme_points` stops after
exactly `k` oracle calls — within `⌈(D − start)/step⌉ + 1` — and the
returned `high` value is `D − step`, strictly less than `D` by exactly one
step; in particular start `1000`, step `10`, divergence at `1310` returns
`high = 1300`.  (As originally stated, with `k = 1` allowed, the claim is
false: see the counterexample.) -/
theorem probe_high_one_step_below_divergence
    (oracle : ℚ → ℚ → ℚ → Bool) (D start q0 g0 step ceil : ℚ) (k : ℕ)
    (horacle : ∀ l q g, oracle l q g = decide (l < D)) (hstep : 0 < step)
    (hk : 2 ≤ k) (hD : start + k * step = D) :
    find_extreme_result oracle step ceil k start q0 g0
        = some (start, D - step, 1500) ∧
    (probe_loop oracle step ceil k ⟨start, q0, g0, none, 0⟩).map LoopState.calls
        = some k ∧
    (k : ℤ) ≤ ⌈(D - start) / step⌉ + 1 ∧
    D - step < D ∧ D - (D - step) = step ∧
    find_extreme_result (fun l _ _ => decide (l < 1310)) 10 9999 31 1000 500 700
        = some (1000, 1300, 1500) := by
  have h1 : 1 ≤ k := by omega
  have hrun := probe_loop_diverge oracle D step ceil horacle hstep k h1
    start q0 g0 none 0 hD
  have hk1 : k ≠ 1 := by omega
  refine ⟨?_, ?_, ?_, by linarith, by ring, ?_⟩
  · simp [find_extreme_result, hrun, hk1]
  · rw [hrun]; simp
  · have hne : step ≠ 0 := ne_of_gt hstep
    have hq : (D - start) / step = (k : ℚ) := by
      field_simp
      linarith
    rw [hq, Int.ceil_natCast]
    omega
  · have hrun31 := probe_loop_diverge (fun l _ _ => decide (l < 1310)) 1310 10 9999
      (fun _ _ _ => rfl) (by norm_num) 31 (by norm_num) 1000 500 700 none 0 (by norm_num)
    have h31 : (31 : ℕ) ≠ 1 := by norm_num
    simp only [find_extreme_result, hrun31, h31, if_false, Option.some_bind]
    norm_num [Prod.mk.injEq]

/-- C2 counterexample to the claim as stated: with start `1000`, step `10`
and the oracle first non-convergent at `D = 1010 = start + 1·step`, no probe
ever converges, so `find_extreme_points` does not return the promised
`D − step = 1000`: it fails (modelled as `none`, the Python code raises
`UnboundLocalError` on `load_h`). -/
theorem probe_high_fails_at_one_step_divergence :
    find_extreme_result (fun l _ _ => decide (l < 1010)) 10 9999 5 1000 1000 500
        = none ∧
    (none : Option (ℚ × ℚ × ℚ)) ≠ some (1000, 1000, 1500) := by
  have hfirst : decide ((1000 : ℚ) + 10 < 1010) = false := by norm_num
  have hcore : probe_loop (fun l _ _ => decide (l < 1010)) 10 9999 5
      ⟨1000, 1000, 500, none, 0⟩
      = some ⟨1000, 1000, genStep 10 9999 500 - 10, none, 1⟩ := by
    rw [show (5 : ℕ) = 4 + 1 from rfl, probe_loop_succ]
    simp only [hfirst, Bool.false_eq_true, if_false, Option.some.injEq,
      LoopState.mk.injEq]
    refine ⟨by ring, by ring, trivial, trivial, trivial⟩
  exact ⟨by simp [find_extreme_result, hcore], by simp⟩

/-- C2 witness: the amended theorem applied at start `1000`, step `10`,
divergence point `1310 = 1000 + 31·10`. -/
theorem probe_high_one_step_below_divergence_witness :
    (0 : ℚ) < 10 ∧ 2 ≤ 31 ∧ (1000 : ℚ) + (31 : ℕ) * 10 = 1310 ∧
    find_extreme_result (fun l _ _ => decide (l < 1310)) 10 9999 31 1000 500 700
        = some (1000, 1310 - 10, 1500) :=
  ⟨by norm_num, by norm_num, by norm_num,
    (probe_high_one_step_below_divergence (fun l _ _ => decide (l < 1310))
      1310 1000 500 700 10 9999 31 (fun _ _ _ => rfl) (by norm_num)
      (by norm_num) (by norm_num)).1⟩

/-- C3 (amended): during probing, generation advances by `step` alongside
load only while it is below the ceiling; but on the first non-converged
probe the rollback subtracts one `step` from the generation
*unconditionally* — even when the ceiling blocked the final increment.
Hence the final generation is the `k`-fold conditional advance minus one
step: it equals the last-converged generation exactly when the ceiling was
not active at the divergent probe, and is one step *below* it when the
ceiling was active.  The final load is the last converged load `D − step`.
(As originally stated — final generation always equals its last-converged
value — the claim is false: see the counterexample.) -/
theorem probe_gen_rollback_unconditional
    (oracle : ℚ → ℚ → ℚ → Bool) (D start q0 g0 step ceil : ℚ) (k : ℕ)
    (horacle : ∀ l q g, oracle l q g = decide (l < D)) (hstep : 0 < step)
    (hk : 2 ≤ k) (hD : start + k * step = D) :
    (probe_loop oracle step ceil k ⟨start, q0, g0, none, 0⟩).map LoopState.loadP
        = some (D - step) ∧
    (probe_loop oracle step ceil k ⟨start, q0, g0, none, 0⟩).map LoopState.gen
        = some ((genStep step ceil)^[k] g0 - step) ∧
    ((genStep step ceil)^[k - 1] g0 < ceil →
      (probe_loop oracle step ceil k ⟨start, q0, g0, none, 0⟩).map LoopState.gen
          = some ((genStep step ceil)^[k - 1] g0)) ∧
    (¬ (genStep step ceil)^[k - 1] g0 < ceil →
      (probe_loop oracle step ceil k ⟨start, q0, g0, none, 0⟩).map LoopState.gen
          = some ((genStep step ceil)^[k - 1] g0 - step)) := by
  have h1 : 1 ≤ k := by omega
  have hrun := probe_loop_diverge oracle D step ceil horacle hstep k h1
    start q0 g0 none 0 hD
  have hit : (genStep step ceil)^[k] g0
      = genStep step ceil ((genStep step ceil)^[k - 1] g0) := by
    have hk' : k = (k - 1) + 1 := by omega
    conv_lhs => rw [hk']
    rw [Function.iterate_succ_apply']
  refine ⟨by rw [hrun]; simp, by rw [hrun]; simp, ?_, ?_⟩
  · intro h
    rw [hrun]
    simp only [Option.map_some', Option.some.injEq]
    rw [hit, genStep_def, if_pos h]
    ring
  · intro h
    rw [hrun]
    simp only [Option.map_some', Option.some.injEq]
    rw [hit, genStep_def, if_neg h]

/-- C3 counterexample to the claim as stated: start `(load, gen) =
(1000, 9999)` with ceiling `9999` and divergence at `1020`.  The ceiling is
active throughout, so generation is never incremented, yet the rollback
still subtracts one step: the loop ends with `gen = 9989`, one step below
its value `9999` at the last converged probe — not equal to it as the claim
says. -/
theorem probe_gen_rollback_counterexample :
    probe_loop (fun l _ _ => decide (l < 1020)) 10 9999 2 ⟨1000, 1000, 9999, none, 0⟩
        = some ⟨1010, 1010, 9989, some 1010, 2⟩ ∧
    (9989 : ℚ) ≠ 9999 := by
  have hrun := probe_loop_diverge (fun l _ _ => decide (l < 1020)) 1020 10 9999
    (fun _ _ _ => rfl) (by norm_num) 2 (by norm_num) 1000 1000 9999 none 0 (by norm_num)
  have hg1 : genStep 10 9999 (9999 : ℚ) = 9999 := by norm_num [genStep]
  have hgen : (genStep 10 9999)^[2] (9999 : ℚ) = 9999 := by
    rw [show (2 : ℕ) = 1 + 1 from rfl, Function.iterate_succ_apply,
      Function.iterate_one, hg1, hg1]
  refine ⟨?_, by norm_num⟩
  rw [hrun, hgen]
  norm_num [LoopState.mk.injEq]

/-- C3 witness: the amended theorem applied with start generation `500`,
ceiling `9999` (never active), step `10`, divergence at `1310`. -/
theorem probe_gen_rollback_unconditional_witness :
    (0 : ℚ) < 10 ∧ 2 ≤ 2 ∧ (1000 : ℚ) + (2 : ℕ) * 10 = 1020 ∧
    (genStep 10 9999)^[2 - 1] 500 < 9999 ∧
    (probe_loop (fun l _ _ => decide (l < 1020)) 10 9999 2
        ⟨1000, 500, 500, none, 0⟩).map LoopState.gen
      = some ((genStep 10 9999)^[2 - 1] 500) :=
  ⟨by norm_num, by norm_num, by norm_num,
    by norm_num [genStep, Function.iterate_one],
    (probe_gen_rollback_unconditional (fun l _ _ => decide (l < 1020))
      1020 1000 500 500 10 9999 2 (fun _ _ _ => rfl) (by norm_num)
      (by norm_num) (by norm_num)).2.2.1
      (by norm_num [genStep, Function.iterate_one])⟩

/-- C10 (confirmed): if the oracle reports non-convergence already on the
very first probe increment, the loop breaks with `load_h` still unassigned
(`none`), so `find_extreme_points` does not return the base point — the
return fails (Python `UnboundLocalError`), modelled as `none`.  A normal
return requires at least one converged probe. -/
theorem first_probe_divergence_fails
    (oracle : ℚ → ℚ → ℚ → Bool) (step ceil p q g : ℚ) (fuel : ℕ)
    (hfuel : 1 ≤ fuel)
    (hfirst : oracle (p + step) (q + step) (genStep step ceil g) = false) :
    probe_loop oracle step ceil fuel ⟨p, q, g, none, 0⟩
        = some ⟨p, q, genStep step ceil g - step, none, 1⟩ ∧
    find_extreme_result oracle step ceil fuel p q g = none := by
  obtain ⟨m, rfl⟩ : ∃ m, fuel = m + 1 := ⟨fuel - 1, by omega⟩
  have hcore : probe_loop oracle step ceil (m + 1) ⟨p, q, g, none, 0⟩
      = some ⟨p, q, genStep step ceil g - step, none, 1⟩ := by
    rw [probe_loop_succ]
    simp only [hfirst, Bool.false_eq_true, if_false, Option.some.injEq,
      LoopState.mk.injEq]
    refine ⟨by ring, by ring, trivial, trivial, trivial⟩
  exact ⟨hcore, by simp [find_extreme_result, hcore]⟩

/-- C10 witness: an oracle that never converges, probed from
`(1000, 1000, 500)`. -/
theorem first_probe_divergence_fails_witness :
    (1 : ℕ) ≤ 3 ∧
    (fun (_ _ _ : ℚ) => false) ((1000 : ℚ) + 10) (1000 + 10) (genStep 10 9999 500)
        = false ∧
    find_extreme_result (fun _ _ _ => false) 10 9999 3 1000 1000 500 = none :=
  ⟨by norm_num, rfl,
    (first_probe_divergence_fails (fun _ _ _ => false) 10 9999 1000 1000 500 3
      (by norm_num) rfl).2⟩

/-! ### List helpers: Python `zip` comprehensions and numpy reductions -/

/-- Python `[f(a,b,c,d) for a,b,c,d in zip(as,bs,cs,ds)]`: truncates to the
shortest list, like `zip`. -/
def zipWith4 (f : ℚ → ℚ → ℚ → ℚ → ℚ) :
    List ℚ → List ℚ → List ℚ → List ℚ → List ℚ
  | a :: as, b :: bs, c :: cs, d :: ds => f a b c d :: zipWith4 f as bs cs ds
  | _, _, _, _ => []

/-- Python `[f(a,b,c,d,e) for a,b,c,d,e in zip(..)]` over five lists. -/
def zipWith5 (f : ℚ → ℚ → ℚ → ℚ → ℚ → ℚ) :
    List ℚ → List ℚ → List ℚ → List ℚ → List ℚ → List ℚ
  | a :: as, b :: bs, c :: cs, d :: ds, e :: es =>
      f a b c d e :: zipWith5 f as bs cs ds es
  | _, _, _, _, _ => []

/-- `np.max` of a series; `0` for the empty list (numpy raises there,
the pipeline only evaluates it on nonempty series). -/
def maxList : List ℚ → ℚ
  | [] => 0
  | [x] => x
  | x :: y :: t => max x (maxList (y :: t))

/-- `np.min` of a series; `0` for the empty list. -/
def minList : List ℚ → ℚ
  | [] => 0
  | [x] => x
  | x :: y :: t => min x (minList (y :: t))

/-- `np.mean`: sum divided by length. -/
def meanList (l : List ℚ) : ℚ := l.sum / l.length

/-- Element lookup through a binary `zip` comprehension. -/
theorem zipWith_getElem?_of (f : ℚ → ℚ → ℚ) (as bs : List ℚ) (i : ℕ) (a b : ℚ)
    (ha : as[i]? = some a) (hb : bs[i]? = some b) :
    (List.zipWith f as bs)[i]? = some (f a b) := by
  simp [List.getElem?_zipWith, ha, hb]

/-- Element lookup through a 4-ary `zip` comprehension. -/
theorem zipWith4_getElem?_of (f : ℚ → ℚ → ℚ → ℚ → ℚ) :
    ∀ (as bs cs ds : List ℚ) (i : ℕ) (a b c d : ℚ),
      as[i]? = some a → bs[i]? = some b → cs[i]? = some c → ds[i]? = some d →
      (zipWith4 f as bs cs ds)[i]? = some (f a b c d)
  | a' :: as, b' :: bs, c' :: cs, d' :: ds, 0, a, b, c, d, ha, hb, hc, hd => by
      simp only [List.getElem?_cons_zero, Option.some.injEq] at ha hb hc hd
      subst ha; subst hb; subst hc; subst hd
      simp [zipWith4]
  | a' :: as, b' :: bs, c' :: cs, d' :: ds, i + 1, a, b, c, d, ha, hb, hc, hd => by
      simp only [List.getElem?_cons_succ] at ha hb hc hd
      simpa [zipWith4] using
        zipWith4_getElem?_of f as bs cs ds i a b c d ha hb hc hd
  | [], _, _, _, _, a, b, c, d, ha, _, _, _ => by simp at ha
  | _ :: _, [], _, _, _, a, b, c, d, _, hb, _, _ => by simp at hb
  | _ :: _, _ :: _, [], _, _, a, b, c, d, _, _, hc, _ => by simp at hc
  | _ :: _, _ :: _, _ :: _, [], _, a, b, c, d, _, _, _, hd => by simp at hd

/-- Element lookup through a 5-ary `zip` comprehension. -/
theorem zipWith5_getElem?_of (f : ℚ → ℚ → ℚ → ℚ → ℚ → ℚ) :
    ∀ (as bs cs ds es : List ℚ) (i : ℕ) (a b c d e : ℚ),
      as[i]? = some a → bs[i]? = some b → cs[i]? = some c → ds[i]? = some d →
      es[i]? = some e →
      (zipWith5 f as bs cs ds es)[i]? = some (f a b c d e)
  | a' :: as, b' :: bs, c' :: cs, d' :: ds, e' :: es, 0, a, b, c, d, e,
      ha, hb, hc, hd, he => by
      simp only [List.getElem?_cons_zero, Option.some.injEq] at ha hb hc hd he
      subst ha; subst hb; subst hc; subst hd; subst he
      simp [zipWith5]
  | a' :: as, b' :: bs, c' :: cs, d' :: ds, e' :: es, i + 1, a, b, c, d, e,
      ha, hb, hc, hd, he => by
      simp only [List.getElem?_cons_succ] at ha hb hc hd he
      simpa [zipWith5] using
        zipWith5_getElem?_of f as bs cs ds es i a b c d e ha hb hc hd he
  | [], _, _, _, _, _, a, b, c, d, e, ha, _, _, _, _ => by simp at ha
  | _ :: _, [], _, _, _, _, a, b, c, d, e, _, hb, _, _, _ => by simp at hb
  | _ :: _, _ :: _, [], _, _, _, a, b, c, d, e, _, _, hc, _, _ => by simp at hc
  | _ :: _, _ :: _, _ :: _, [], _, _, a, b, c, d, e, _, _, _, hd, _ => by
      simp at hd
  | _ :: _, _ :: _, _ :: _, _ :: _, [], _, a, b, c, d, e, _, _, _, _, he => by
      simp at he

/-! ### Quadratic envelope fitter (`data_processing.py` lines 126-155) -/

/-- Failure of the 3×3 linear solve: `np.linalg.solve` raises
`numpy.linalg.LinAlgError` on an exactly singular matrix; the
specification calls this condition `SingularEnvelope`. -/
inductive FitError where
  | singularEnvelope
  deriving DecidableEq, Repr

/-- Determinant of a 3×3 matrix (Laplace expansion along the first row). -/
def det3 (a11 a12 a13 a21 a22 a23 a31 a32 a33 : ℚ) : ℚ :=
  a11 * (a22 * a33 - a23 * a32) - a12 * (a21 * a33 - a23 * a31)
    + a13 * (a21 * a32 - a22 * a31)

/-- Model of `np.linalg.solve(A, B)` for a 3×3 system: Cramer's rule when
the matrix is regular, an explicit error (numpy's `LinAlgError`) when it is
singular. -/
def solve3 (a11 a12 a13 a21 a22 a23 a31 a32 a33 b1 b2 b3 : ℚ) :
    Except FitError (ℚ × ℚ × ℚ) :=
  if det3 a11 a12 a13 a21 a22 a23 a31 a32 a33 = 0 then
    Except.error FitError.singularEnvelope
  else
    Except.ok
      (det3 b1 a12 a13 b2 a22 a23 b3 a32 a33
         / det3 a11 a12 a13 a21 a22 a23 a31 a32 a33,
       det3 a11 b1 a13 a21 b2 a23 a31 b3 a33
         / det3 a11 a12 a13 a21 a22 a23 a31 a32 a33,
       det3 a11 a12 b1 a21 a22 b2 a31 a32 b3
         / det3 a11 a12 a13 a21 a22 a23 a31 a32 a33)

/-- The quadratic fit of `scale_down` (`data_processing.py` lines 141-152):
coefficient matrix `[[x0²,x0,1],[x1²,x1,1],[x2²,x2,1]]`, right-hand side
`(y0,y1,y2)`, handed to `np.linalg.solve`. -/
def fit (x0 x1 x2 y0 y1 y2 : ℚ) : Except FitError (ℚ × ℚ × ℚ) :=
  solve3 (x0 ^ 2) x0 1 (x1 ^ 2) x1 1 (x2 ^ 2) x2 1 y0 y1 y2

/-- `a * x ** 2 + b * x + c` (`data_processing.py` line 155), applied
elementwise to the demand array by numpy broadcasting. -/
def eval_quad (a b c x : ℚ) : ℚ := a * x ^ 2 + b * x + c

/-- Cramer's rule is correct: a successful `solve3` satisfies all three
equations of the system. -/
theorem solve3_correct (a11 a12 a13 a21 a22 a23 a31 a32 a33 b1 b2 b3 a b c : ℚ)
    (h : solve3 a11 a12 a13 a21 a22 a23 a31 a32 a33 b1 b2 b3
        = Except.ok (a, b, c)) :
    a11 * a + a12 * b + a13 * c = b1 ∧
    a21 * a + a22 * b + a23 * c = b2 ∧
    a31 * a + a32 * b + a33 * c = b3 := by
  by_cases hdet : det3 a11 a12 a13 a21 a22 a23 a31 a32 a33 = 0
  · rw [solve3, if_pos hdet] at h
    exact absurd h (by simp)
  · rw [solve3, if_neg hdet] at h
    simp only [Except.ok.injEq, Prod.mk.injEq] at h
    obtain ⟨ha, hb, hc⟩ := h
    subst ha; subst hb; subst hc
    simp only [det3] at hdet ⊢
    refine ⟨?_, ?_, ?_⟩ <;> (field_simp; ring)

/-- The determinant of the interpolation matrix factors over the pairwise
differences of the abscissae. -/
theorem det3_vandermonde (x0 x1 x2 : ℚ) :
    det3 (x0 ^ 2) x0 1 (x1 ^ 2) x1 1 (x2 ^ 2) x2 1
      = (x1 - x2) * (x0 - x1) * (x0 - x2) := by
  simp only [det3]; ring

/-- C4 (confirmed): for pairwise distinct reference metrics the fitter's
solution of the 3×3 system reproduces each calibration bound exactly:
`a·xi² + b·xi + c = yi`; for the points `(500,1000)`, `(700,1300)`,
`(300,1500)` the fit is `(1/100, -21/2, 3750)` and evaluation at
`500, 700, 300` returns `1000, 1300, 1500`. -/
theorem fit_interpolates (x0 x1 x2 y0 y1 y2 a b c : ℚ)
    (h01 : x0 ≠ x1) (h02 : x0 ≠ x2) (h12 : x1 ≠ x2)
    (hfit : fit x0 x1 x2 y0 y1 y2 = Except.ok (a, b, c)) :
    eval_quad a b c x0 = y0 ∧ eval_quad a b c x1 = y1 ∧
    eval_quad a b c x2 = y2 ∧
    fit 500 700 300 1000 1300 1500 = Except.ok (1/100, -21/2, 3750) ∧
    eval_quad (1/100) (-21/2) 3750 500 = 1000 ∧
    eval_quad (1/100) (-21/2) 3750 700 = 1300 ∧
    eval_quad (1/100) (-21/2) 3750 300 = 1500 := by
  have h := solve3_correct (x0 ^ 2) x0 1 (x1 ^ 2) x1 1 (x2 ^ 2) x2 1
    y0 y1 y2 a b c hfit
  refine ⟨?_, ?_, ?_, by norm_num [fit, solve3, det3], by norm_num [eval_quad],
    by norm_num [eval_quad], by norm_num [eval_quad]⟩
  · rw [eval_quad]; linear_combination h.1
  · rw [eval_quad]; linear_combination h.2.1
  · rw [eval_quad]; linear_combination h.2.2

/-- C4 witness: the fit through `(500,1000)`, `(700,1300)`, `(300,1500)`
reproduces `1000` at `500`. -/
theorem fit_interpolates_witness :
    (500 : ℚ) ≠ 700 ∧ (500 : ℚ) ≠ 300 ∧ (700 : ℚ) ≠ 300 ∧
    fit 500 700 300 1000 1300 1500 = Except.ok (1/100, -21/2, 3750) ∧
    eval_quad (1/100) (-21/2) 3750 500 = 1000 :=
  ⟨by norm_num, by norm_num, by norm_num, by norm_num [fit, solve3, det3],
   (fit_interpolates 500 700 300 1000 1300 1500 (1/100) (-21/2) 3750
     (by norm_num) (by norm_num) (by norm_num)
     (by norm_num [fit, solve3, det3])).1⟩

/-- C5 (confirmed): when any two reference metrics coincide the coefficient
matrix is singular and the fit fails with the explicit singular-envelope
error (numpy's `LinAlgError` aborts the run); no coefficient triple is ever
returned in that case, so no `NaN`/`Inf` can be produced silently. -/
theorem fit_singular_envelope (x0 x1 x2 y0 y1 y2 : ℚ)
    (hcoin : x0 = x1 ∨ x0 = x2 ∨ x1 = x2) :
    fit x0 x1 x2 y0 y1 y2 = Except.error FitError.singularEnvelope := by
  have hdet : det3 (x0 ^ 2) x0 1 (x1 ^ 2) x1 1 (x2 ^ 2) x2 1 = 0 := by
    rw [det3_vandermonde]
    rcases hcoin with h | h | h <;> rw [h] <;> ring
  rw [fit, solve3, if_pos hdet]

/-- C5 witness: coinciding metrics `x0 = x1 = 1` make the fit fail. -/
theorem fit_singular_envelope_witness :
    ((1 : ℚ) = 1 ∨ (1 : ℚ) = 2 ∨ (1 : ℚ) = 2) ∧
    fit 1 1 2 5 6 7 = Except.error FitError.singularEnvelope :=
  ⟨Or.inl rfl, fit_singular_envelope 1 1 2 5 6 7 (Or.inl rfl)⟩

/-! ### The `scale_down` data flow (`data_processing.py` lines 72-184)

The NYISO feeds and the interface CSV are external collaborators; the
embedding starts at the aggregated series the function derives from them:
`load1` (CENTRL+WEST+GENESE), `load2` (DUNWOD+MILLWD+N.Y.C.+LONGIL),
`hourly_flow` and `hourly_limit`, plus the `extremes` dictionary. -/

/-- Input boundary of `scale_down`. -/
structure ScaleInput where
  load1 : List ℚ
  load2 : List ℚ
  flow : List ℚ
  limit : List ℚ
  base : ℚ
  high : ℚ
  no_transfer : ℚ

/-- `total_dispatch_zone1 = [i + j for i, j in zip(load1, hourly_flow)]`
(line 108). -/
def total_dispatch_zone1 (inp : ScaleInput) : List ℚ :=
  List.zipWith (fun i j => i + j) inp.load1 inp.flow

/-- `G1_cap = 1300` (line 110). -/
def G1_cap : ℚ := 1300

/-- `G2_cap = 1000` (line 111). -/
def G2_cap : ℚ := 1000

/-- `G3_cap = 6500.5` (line 119). -/
def G3_cap : ℚ := 6500.5

/-- `G4_cap = 5549.5` (line 120). -/
def G4_cap : ℚ := 5549.5

/-- The capacity-proportional split `[x * cap / total for x in zone]`
(lines 114-115 and 123-124). -/
def capacity_alloc (cap total : ℚ) (zone : List ℚ) : List ℚ :=
  zone.map fun x => x * cap / total

/-- `G1_dispatch` (line 114). -/
def G1_dispatch (inp : ScaleInput) : List ℚ :=
  capacity_alloc G1_cap (G1_cap + G2_cap) (total_dispatch_zone1 inp)

/-- `G2_dispatch` (line 115) — computed in the source but never used
afterwards: `G2` is rebuilt as the conservation residual (line 172). -/
def G2_dispatch (inp : ScaleInput) : List ℚ :=
  capacity_alloc G2_cap (G1_cap + G2_cap) (total_dispatch_zone1 inp)

/-- `total_dispatch_zone2 = [i - j for i, j in zip(load2, hourly_flow)]`
(line 117). -/
def total_dispatch_zone2 (inp : ScaleInput) : List ℚ :=
  List.zipWith (fun i j => i - j) inp.load2 inp.flow

/-- `G3_dispatch` (line 123). -/
def G3_dispatch (inp : ScaleInput) : List ℚ :=
  capacity_alloc G3_cap (G3_cap + G4_cap) (total_dispatch_zone2 inp)

/-- `G4_dispatch` (line 124). -/
def G4_dispatch (inp : ScaleInput) : List ℚ :=
  capacity_alloc G4_cap (G3_cap + G4_cap) (total_dispatch_zone2 inp)

/-- The envelope coefficients of `scale_down` (lines 128-152): calibration
points `(mean load2, base)`, `(max load2, high)`, `(min load2, no_transfer)`
solved by the quadratic fit. -/
def scale_down_coeffs (inp : ScaleInput) : Except FitError (ℚ × ℚ × ℚ) :=
  fit (meanList inp.load2) (maxList inp.load2) (minList inp.load2)
    inp.base inp.high inp.no_transfer

/-- `scaled_load2 = a * x ** 2 + b * x + c` over `x = load2` (lines
154-155). -/
def scaled_load2 (inp : ScaleInput) (a b c : ℚ) : List ℚ :=
  inp.load2.map (eval_quad a b c)

/-- `base_load = 967` (line 157). -/
def base_load : ℚ := 967

/-- The peak-anchored rescale
`[peak * i / max_value for i in raw]` (lines 157-159). -/
def scale_to_peak (peak : ℚ) (raw : List ℚ) : List ℚ :=
  raw.map fun i => peak * i / maxList raw

/-- `scaled_load1` (line 159). -/
def scaled_load1 (inp : ScaleInput) : List ℚ :=
  scale_to_peak base_load inp.load1

/-- `scaling_factor1 = [j/i for i,j in zip(load1, scaled_load1)]`
(line 162). -/
def scaling_factor1 (inp : ScaleInput) : List ℚ :=
  List.zipWith (fun i j => j / i) inp.load1 (scaled_load1 inp)

/-- `scaled_G1 = [i*j for i,j in zip(G1_dispatch, scaling_factor1)]`
(line 163). -/
def scaled_G1 (inp : ScaleInput) : List ℚ :=
  List.zipWith (fun i j => i * j) (G1_dispatch inp) (scaling_factor1 inp)

/-- `scaling_factor2 = [j/i for i,j in zip(load2, scaled_load2)]`
(line 164). -/
def scaling_factor2 (inp : ScaleInput) (a b c : ℚ) : List ℚ :=
  List.zipWith (fun i j => j / i) inp.load2 (scaled_load2 inp a b c)

/-- `scaled_G3` (line 165). -/
def scaled_G3 (inp : ScaleInput) (a b c : ℚ) : List ℚ :=
  List.zipWith (fun i j => i * j) (G3_dispatch inp) (scaling_factor2 inp a b c)

/-- `scaled_G4` (line 166). -/
def scaled_G4 (inp : ScaleInput) (a b c : ℚ) : List ℚ :=
  List.zipWith (fun i j => i * j) (G4_dispatch inp) (scaling_factor2 inp a b c)

/-- `factor_tie = [(i*k+j*l)/(2*(k+l)) for i,j,k,l in
zip(scaling_factor1, scaling_factor2, total_dispatch_zone1,
total_dispatch_zone2)]` (line 167). -/
def factor_tie (sf1 sf2 t1 t2 : List ℚ) : List ℚ :=
  zipWith4 (fun i j k l => (i * k + j * l) / (2 * (k + l))) sf1 sf2 t1 t2

/-- `p_tie_scaled = [m*n/2 for m,n in zip(hourly_limit, factor_tie)]`
(line 168). -/
def p_tie_scaled (limit ftie : List ℚ) : List ℚ :=
  List.zipWith (fun m n => m * n / 2) limit ftie

/-- The tie factor series of `scale_down` (line 167). -/
def factor_tie_series (inp : ScaleInput) (a b c : ℚ) : List ℚ :=
  factor_tie (scaling_factor1 inp) (scaling_factor2 inp a b c)
    (total_dispatch_zone1 inp) (total_dispatch_zone2 inp)

/-- The scaled tie-flow series of `scale_down` (line 168). -/
def p_tie_series (inp : ScaleInput) (a b c : ℚ) : List ℚ :=
  p_tie_scaled inp.limit (factor_tie_series inp a b c)

/-- `scaled_G2 = [i+j-k-l-m for i,j,k,l,m in zip(scaled_load1,
scaled_load2, scaled_G1, scaled_G3, scaled_G4)]` (line 172): the residual
unit balancing the two-zone aggregate. -/
def scaled_G2 (inp : ScaleInput) (a b c : ℚ) : List ℚ :=
  zipWith5 (fun i j k l m => i + j - k - l - m)
    (scaled_load1 inp) (scaled_load2 inp a b c) (scaled_G1 inp)
    (scaled_G3 inp a b c) (scaled_G4 inp a b c)

/-- The dictionary returned by `scale_down` (lines 174-184); the pass-through
`time` axis of the external feed is omitted. -/
structure ScaledOutput where
  load1 : List ℚ
  load2 : List ℚ
  G1 : List ℚ
  G2 : List ℚ
  G3 : List ℚ
  G4 : List ℚ
  tie_rate : List ℚ

/-- `scale_down` after a successful coefficient solve. -/
def scale_down_with (inp : ScaleInput) (a b c : ℚ) : ScaledOutput :=
  ⟨scaled_load1 inp, scaled_load2 inp a b c, scaled_G1 inp,
   scaled_G2 inp a b c, scaled_G3 inp a b c, scaled_G4 inp a b c,
   p_tie_series inp a b c⟩

/-- The whole of `scale_down`: the coefficient solve may fail (singular
envelope), everything after it is deterministic elementwise arithmetic. -/
def scale_down (inp : ScaleInput) : Except FitError ScaledOutput :=
  (scale_down_coeffs inp).map fun abc =>
    scale_down_with inp abc.1 abc.2.1 abc.2.2

/-- A small concrete input used by witnesses: one timestep, unit loads,
zero interface flow. -/
def wIn : ScaleInput := ⟨[1], [1], [0], [1], 15, 20, 10⟩

/-- A concrete input with nonzero interface flow, exhibiting the failure of
per-zone conservation: two timesteps, `load1 = load2 = [10, 20]`,
`flow = [5, 5]`, and extremes chosen so that the fitted quadratic is the
identity (`(a,b,c) = (0,1,0)`). -/
def exIn : ScaleInput := ⟨[10, 20], [10, 20], [5, 5], [1, 1], 15, 20, 10⟩

/-- C6 (confirmed): every non-residual unit's output at `t` is the
transfer-adjusted zone total times the unit's capacity share, then times
that zone's per-timestep scaling factor (`G1` with share
`G1_cap/(G1_cap+G2_cap)` on zone 1, `G3`/`G4` with shares over
`G3_cap+G4_cap` on zone 2); and the generic pre-scaling split of a zone
total `[100,200]` with capacities `30` and `70` gives `[30,60]` and
`[70,140]`, summing back to the zone total. -/
theorem capacity_allocation_formula (inp : ScaleInput) (a b c : ℚ) (t : ℕ)
    (x1 s1 g1 x2 s2 g3 g4 : ℚ)
    (ht1 : (total_dispatch_zone1 inp)[t]? = some x1)
    (hs1 : (scaling_factor1 inp)[t]? = some s1)
    (hg1 : (scaled_G1 inp)[t]? = some g1)
    (ht2 : (total_dispatch_zone2 inp)[t]? = some x2)
    (hs2 : (scaling_factor2 inp a b c)[t]? = some s2)
    (hg3 : (scaled_G3 inp a b c)[t]? = some g3)
    (hg4 : (scaled_G4 inp a b c)[t]? = some g4) :
    g1 = x1 * (G1_cap / (G1_cap + G2_cap)) * s1 ∧
    g3 = x2 * (G3_cap / (G3_cap + G4_cap)) * s2 ∧
    g4 = x2 * (G4_cap / (G3_cap + G4_cap)) * s2 ∧
    capacity_alloc 30 (30 + 70) [100, 200] = [30, 60] ∧
    capacity_alloc 70 (30 + 70) [100, 200] = [70, 140] ∧
    List.zipWith (fun i j => i + j) (capacity_alloc 30 (30 + 70) [100, 200])
        (capacity_alloc 70 (30 + 70) [100, 200]) = [100, 200] := by
  refine ⟨?_, ?_, ?_, by norm_num [capacity_alloc],
    by norm_num [capacity_alloc], by norm_num [capacity_alloc]⟩
  · have hd : (G1_dispatch inp)[t]? = some (x1 * G1_cap / (G1_cap + G2_cap)) := by
      rw [G1_dispatch, capacity_alloc, List.getElem?_map, ht1, Option.map_some']
    have h := zipWith_getElem?_of (fun i j => i * j) (G1_dispatch inp)
      (scaling_factor1 inp) t _ _ hd hs1
    rw [scaled_G1, h] at hg1
    obtain rfl := Option.some.inj hg1
    ring
  · have hd : (G3_dispatch inp)[t]? = some (x2 * G3_cap / (G3_cap + G4_cap)) := by
      rw [G3_dispatch, capacity_alloc, List.getElem?_map, ht2, Option.map_some']
    have h := zipWith_getElem?_of (fun i j => i * j) (G3_dispatch inp)
      (scaling_factor2 inp a b c) t _ _ hd hs2
    rw [scaled_G3, h] at hg3
    obtain rfl := Option.some.inj hg3
    ring
  · have hd : (G4_dispatch inp)[t]? = some (x2 * G4_cap / (G3_cap + G4_cap)) := by
      rw [G4_dispatch, capacity_alloc, List.getElem?_map, ht2, Option.map_some']
    have h := zipWith_getElem?_of (fun i j => i * j) (G4_dispatch inp)
      (scaling_factor2 inp a b c) t _ _ hd hs2
    rw [scaled_G4, h] at hg4
    obtain rfl := Option.some.inj hg4
    ring

/-- C9 (confirmed): the residual unit `G2` is by construction
`scaled_load1[t] + scaled_load2[t] − G1[t] − G3[t] − G4[t]`, so the sum of
all four units reproduces the two-zone *aggregate* scaled demand exactly at
every timestep. -/
theorem residual_balances_aggregate (inp : ScaleInput) (a b c : ℚ) (t : ℕ)
    (l1 l2 g1 g3 g4 : ℚ)
    (hl1 : (scaled_load1 inp)[t]? = some l1)
    (hl2 : (scaled_load2 inp a b c)[t]? = some l2)
    (hg1 : (scaled_G1 inp)[t]? = some g1)
    (hg3 : (scaled_G3 inp a b c)[t]? = some g3)
    (hg4 : (scaled_G4 inp a b c)[t]? = some g4) :
    (scaled_G2 inp a b c)[t]? = some (l1 + l2 - g1 - g3 - g4) ∧
    g1 + (l1 + l2 - g1 - g3 - g4) + g3 + g4 = l1 + l2 := by
  refine ⟨?_, by ring⟩
  rw [scaled_G2]
  exact zipWith5_getElem?_of _ _ _ _ _ _ t _ _ _ _ _ hl1 hl2 hg1 hg3 hg4

/-- C1 (amended): conservation holds only in aggregate — at every timestep
the sum of all four allocated outputs, residual included, equals
`scaled_load1[t] + scaled_load2[t]`; per-zone conservation fails in general
(see the counterexample). -/
theorem conservation_aggregate (inp : ScaleInput) (a b c : ℚ) (t : ℕ)
    (l1 l2 g1 g2 g3 g4 : ℚ)
    (hl1 : (scaled_load1 inp)[t]? = some l1)
    (hl2 : (scaled_load2 inp a b c)[t]? = some l2)
    (hg1 : (scaled_G1 inp)[t]? = some g1)
    (hg2 : (scaled_G2 inp a b c)[t]? = some g2)
    (hg3 : (scaled_G3 inp a b c)[t]? = some g3)
    (hg4 : (scaled_G4 inp a b c)[t]? = some g4) :
    g1 + g2 + g3 + g4 = l1 + l2 := by
  have h : (scaled_G2 inp a b c)[t]? = some (l1 + l2 - g1 - g3 - g4) := by
    rw [scaled_G2]
    exact zipWith5_getElem?_of _ _ _ _ _ _ t _ _ _ _ _ hl1 hl2 hg1 hg3 hg4
  rw [h] at hg2
  obtain rfl := Option.some.inj hg2
  ring

/-- C1 counterexample to per-zone conservation as stated: at `exIn` (flow
`5` between the zones, fitted quadratic the identity) and `t = 0`, zone 2's
allocated units `G3 + G4` sum to `5` while `scaled_load2[0] = 10`; adding
the residual `G2` to either zone does not restore equality either —
`G1 + G2 ≠ scaled_load1[0]` and `G3 + G4 + G2 ≠ scaled_load2[0]`. -/
theorem per_zone_conservation_counterexample :
    scale_down_coeffs exIn = Except.ok (0, 1, 0) ∧
    (List.zipWith (fun i j => i + j) (scaled_G3 exIn 0 1 0)
        (scaled_G4 exIn 0 1 0))[0]? ≠ (scaled_load2 exIn 0 1 0)[0]? ∧
    (List.zipWith (fun i j => i + j) (scaled_G1 exIn)
        (scaled_G2 exIn 0 1 0))[0]? ≠ (scaled_load1 exIn)[0]? ∧
    (List.zipWith (fun i j => i + j)
        (List.zipWith (fun i j => i + j) (scaled_G3 exIn 0 1 0)
          (scaled_G4 exIn 0 1 0))
        (scaled_G2 exIn 0 1 0))[0]? ≠ (scaled_load2 exIn 0 1 0)[0]? := by
  have hmax2 : maxList [(10 : ℚ), 20] = 20 := by
    simp only [maxList]
    exact max_eq_right (by norm_num)
  have hmin2 : minList [(10 : ℚ), 20] = 10 := by
    simp only [minList]
    exact min_eq_left (by norm_num)
  have hmean2 : meanList [(10 : ℚ), 20] = 15 := by norm_num [meanList]
  refine ⟨?_, ?_, ?_, ?_⟩
  · norm_num [scale_down_coeffs, fit, solve3, det3, exIn, hmax2, hmin2, hmean2]
  · norm_num [scaled_G3, scaled_G4, G3_dispatch, G4_dispatch, capacity_alloc,
      G3_cap, G4_cap, total_dispatch_zone2, scaling_factor2, scaled_load2,
      eval_quad, exIn]
  · norm_num [scaled_G1, scaled_G2, zipWith5, G1_dispatch, capacity_alloc,
      G1_cap, G2_cap, total_dispatch_zone1, scaling_factor1, scaled_load1,
      scale_to_peak, base_load, scaled_G3, scaled_G4, G3_dispatch, G4_dispatch,
      G3_cap, G4_cap, total_dispatch_zone2, scaling_factor2, scaled_load2,
      eval_quad, exIn, hmax2]
  · norm_num [scaled_G1, scaled_G2, zipWith5, G1_dispatch, capacity_alloc,
      G1_cap, G2_cap, total_dispatch_zone1, scaling_factor1, scaled_load1,
      scale_to_peak, base_load, scaled_G3, scaled_G4, G3_dispatch, G4_dispatch,
      G3_cap, G4_cap, total_dispatch_zone2, scaling_factor2, scaled_load2,
      eval_quad, exIn, hmax2]

/-- C1 witness: aggregate conservation evaluated at `wIn`, `t = 0`. -/
theorem conservation_aggregate_witness :
    (scaled_load1 wIn)[0]? = some 967 ∧
    (scaled_load2 wIn 0 1 0)[0]? = some 1 ∧
    (scaled_G1 wIn)[0]? = some (12571/23) ∧
    (scaled_G2 wIn 0 1 0)[0]? = some (9670/23) ∧
    (scaled_G3 wIn 0 1 0)[0]? = some (13001/24100) ∧
    (scaled_G4 wIn 0 1 0)[0]? = some (11099/24100) ∧
    (12571/23 : ℚ) + 9670/23 + 13001/24100 + 11099/24100 = 967 + 1 := by
  have hl1 : (scaled_load1 wIn)[0]? = some 967 := by
    norm_num [scaled_load1, scale_to_peak, base_load, maxList, wIn]
  have hl2 : (scaled_load2 wIn 0 1 0)[0]? = some 1 := by
    norm_num [scaled_load2, eval_quad, wIn]
  have hg1 : (scaled_G1 wIn)[0]? = some (12571/23) := by
    norm_num [scaled_G1, G1_dispatch, capacity_alloc, G1_cap, G2_cap,
      total_dispatch_zone1, scaling_factor1, scaled_load1, scale_to_peak,
      base_load, maxList, wIn]
  have hg3 : (scaled_G3 wIn 0 1 0)[0]? = some (13001/24100) := by
    norm_num [scaled_G3, G3_dispatch, capacity_alloc, G3_cap, G4_cap,
      total_dispatch_zone2, scaling_factor2, scaled_load2, eval_quad, wIn]
  have hg4 : (scaled_G4 wIn 0 1 0)[0]? = some (11099/24100) := by
    norm_num [scaled_G4, G4_dispatch, capacity_alloc, G3_cap, G4_cap,
      total_dispatch_zone2, scaling_factor2, scaled_load2, eval_quad, wIn]
  have hg2 : (scaled_G2 wIn 0 1 0)[0]? = some (9670/23) := by
    norm_num [scaled_G2, zipWith5, scaled_load1, scale_to_peak, base_load,
      maxList, scaled_load2, eval_quad, scaled_G1, G1_dispatch, capacity_alloc,
      G1_cap, G2_cap, total_dispatch_zone1, scaling_factor1, scaled_G3,
      scaled_G4, G3_dispatch, G4_dispatch, G3_cap, G4_cap,
      total_dispatch_zone2, scaling_factor2, wIn]
  exact ⟨hl1, hl2, hg1, hg2, hg3, hg4,
    conservation_aggregate wIn 0 1 0 0 967 1 (12571/23) (9670/23)
      (13001/24100) (11099/24100) hl1 hl2 hg1 hg2 hg3 hg4⟩

/-- C6 witness: the allocation formula evaluated at `wIn`, `t = 0`. -/
theorem capacity_allocation_formula_witness :
    (total_dispatch_zone1 wIn)[0]? = some 1 ∧
    (scaling_factor1 wIn)[0]? = some 967 ∧
    (scaled_G1 wIn)[0]? = some (12571/23) ∧
    (total_dispatch_zone2 wIn)[0]? = some 1 ∧
    (scaling_factor2 wIn 0 1 0)[0]? = some 1 ∧
    (scaled_G3 wIn 0 1 0)[0]? = some (13001/24100) ∧
    (scaled_G4 wIn 0 1 0)[0]? = some (11099/24100) ∧
    (12571/23 : ℚ) = 1 * (G1_cap / (G1_cap + G2_cap)) * 967 := by
  have h1 : (total_dispatch_zone1 wIn)[0]? = some 1 := by
    norm_num [total_dispatch_zone1, wIn]
  have h2 : (scaling_factor1 wIn)[0]? = some 967 := by
    norm_num [scaling_factor1, scaled_load1, scale_to_peak, base_load,
      maxList, wIn]
  have h3 : (scaled_G1 wIn)[0]? = some (12571/23) := by
    norm_num [scaled_G1, G1_dispatch, capacity_alloc, G1_cap, G2_cap,
      total_dispatch_zone1, scaling_factor1, scaled_load1, scale_to_peak,
      base_load, maxList, wIn]
  have h4 : (total_dispatch_zone2 wIn)[0]? = some 1 := by
    norm_num [total_dispatch_zone2, wIn]
  have h5 : (scaling_factor2 wIn 0 1 0)[0]? = some 1 := by
    norm_num [scaling_factor2, scaled_load2, eval_quad, wIn]
  have h6 : (scaled_G3 wIn 0 1 0)[0]? = some (13001/24100) := by
    norm_num [scaled_G3, G3_dispatch, capacity_alloc, G3_cap, G4_cap,
      total_dispatch_zone2, scaling_factor2, scaled_load2, eval_quad, wIn]
  have h7 : (scaled_G4 wIn 0 1 0)[0]? = some (11099/24100) := by
    norm_num [scaled_G4, G4_dispatch, capacity_alloc, G3_cap, G4_cap,
      total_dispatch_zone2, scaling_factor2, scaled_load2, eval_quad, wIn]
  exact ⟨h1, h2, h3, h4, h5, h6, h7,
    (capacity_allocation_formula wIn 0 1 0 0 1 967 (12571/23) 1 1
      (13001/24100) (11099/24100) h1 h2 h3 h4 h5 h6 h7).1⟩

/-- C9 witness: the residual identity evaluated at `wIn`, `t = 0`. -/
theorem residual_balances_aggregate_witness :
    (scaled_load1 wIn)[0]? = some 967 ∧
    (scaled_load2 wIn 0 1 0)[0]? = some 1 ∧
    (scaled_G1 wIn)[0]? = some (12571/23) ∧
    (scaled_G3 wIn 0 1 0)[0]? = some (13001/24100) ∧
    (scaled_G4 wIn 0 1 0)[0]? = some (11099/24100) ∧
    (scaled_G2 wIn 0 1 0)[0]?
      = some (967 + 1 - 12571/23 - 13001/24100 - 11099/24100) := by
  have hl1 : (scaled_load1 wIn)[0]? = some 967 := by
    norm_num [scaled_load1, scale_to_peak, base_load, maxList, wIn]
  have hl2 : (scaled_load2 wIn 0 1 0)[0]? = some 1 := by
    norm_num [scaled_load2, eval_quad, wIn]
  have hg1 : (scaled_G1 wIn)[0]? = some (12571/23) := by
    norm_num [scaled_G1, G1_dispatch, capacity_alloc, G1_cap, G2_cap,
      total_dispatch_zone1, scaling_factor1, scaled_load1, scale_to_peak,
      base_load, maxList, wIn]
  have hg3 : (scaled_G3 wIn 0 1 0)[0]? = some (13001/24100) := by
    norm_num [scaled_G3, G3_dispatch, capacity_alloc, G3_cap, G4_cap,
      total_dispatch_zone2, scaling_factor2, scaled_load2, eval_quad, wIn]
  have hg4 : (scaled_G4 wIn 0 1 0)[0]? = some (11099/24100) := by
    norm_num [scaled_G4, G4_dispatch, capacity_alloc, G3_cap, G4_cap,
      total_dispatch_zone2, scaling_factor2, scaled_load2, eval_quad, wIn]
  exact ⟨hl1, hl2, hg1, hg3, hg4,
    (residual_balances_aggregate wIn 0 1 0 0 967 1 (12571/23)
      (13001/24100) (11099/24100) hl1 hl2 hg1 hg3 hg4).1⟩

/-- `maxList` commutes with multiplying every element by a nonnegative
constant. -/
theorem maxList_map_mul_right (c : ℚ) (hc : 0 ≤ c) :
    ∀ (x : ℚ) (l : List ℚ),
      maxList ((x :: l).map fun i => i * c) = maxList (x :: l) * c
  | x, [] => by simp [maxList]
  | x, y :: t => by
      have ih := maxList_map_mul_right c hc y t
      simp only [List.map_cons] at ih ⊢
      rw [show maxList (x * c :: y * c :: t.map fun i => i * c)
            = max (x * c) (maxList (y * c :: t.map fun i => i * c)) from rfl,
        show maxList (x :: y :: t) = max x (maxList (y :: t)) from rfl,
        ih, max_mul_of_nonneg _ _ hc]

/-- C7 (amended): for a raw series with **positive** maximum, the
peak-anchored rescale multiplies every sample by the single constant
`base_load / max(raw)`: pointwise `scaled[t] = base_load·raw[t]/max(raw)`,
the maximum of the scaled series is exactly `base_load` (the target peak),
and the per-timestep scaling factor `scaled[t]/raw[t]` equals that same
constant wherever `raw[t] ≠ 0`.  (As originally stated, for *nonzero*
maximum, the claim is false: a series with negative maximum has its peak
mapped to a value other than the target — see the counterexample.) -/
theorem scale_to_peak_spec (raw : List ℚ) (hne : raw ≠ [])
    (hpos : 0 < maxList raw) :
    (∀ (t : ℕ) (x : ℚ), raw[t]? = some x →
      (scale_to_peak base_load raw)[t]? = some (base_load * x / maxList raw)) ∧
    maxList (scale_to_peak base_load raw) = base_load ∧
    (∀ (t : ℕ) (x : ℚ), raw[t]? = some x → x ≠ 0 →
      (List.zipWith (fun i j => j / i) raw (scale_to_peak base_load raw))[t]?
        = some (base_load / maxList raw)) := by
  have hM : maxList raw ≠ 0 := ne_of_gt hpos
  have hpt : ∀ (t : ℕ) (x : ℚ), raw[t]? = some x →
      (scale_to_peak base_load raw)[t]? = some (base_load * x / maxList raw) := by
    intro t x hx
    rw [scale_to_peak, List.getElem?_map, hx, Option.map_some']
  refine ⟨hpt, ?_, ?_⟩
  · obtain ⟨x, l, rfl⟩ : ∃ x l, raw = x :: l := by
      cases raw with
      | nil => exact absurd rfl hne
      | cons x l => exact ⟨x, l, rfl⟩
    have hcong : (x :: l).map (fun i => base_load * i / maxList (x :: l))
        = (x :: l).map fun i => i * (base_load / maxList (x :: l)) := by
      apply List.map_congr_left
      intro a _
      field_simp
      ring
    have hc : 0 ≤ base_load / maxList (x :: l) :=
      div_nonneg (by norm_num [base_load]) (le_of_lt hpos)
    rw [scale_to_peak, hcong, maxList_map_mul_right _ hc x l]
    field_simp
  · intro t x hx hx0
    have h := hpt t x hx
    rw [zipWith_getElem?_of _ _ _ t _ _ hx h, Option.some.injEq]
    field_simp
    ring

/-- C7 counterexample to the claim as stated: the series `[-2, -1]` has
nonzero maximum `-1`, yet the peak-anchored rescale maps it to
`[1934, 967]`, whose maximum `1934` is not the target peak `967`. -/
theorem scale_to_peak_counterexample :
    maxList [(-2 : ℚ), -1] ≠ 0 ∧
    scale_to_peak base_load [(-2 : ℚ), -1] = [1934, 967] ∧
    maxList (scale_to_peak base_load [(-2 : ℚ), -1]) = 1934 ∧
    (1934 : ℚ) ≠ base_load := by
  have hm : maxList [(-2 : ℚ), -1] = -1 := by
    simp only [maxList]
    exact max_eq_right (by norm_num)
  have hs : scale_to_peak base_load [(-2 : ℚ), -1] = [1934, 967] := by
    rw [scale_to_peak, hm]
    norm_num [base_load]
  refine ⟨by rw [hm]; norm_num, hs, ?_, by norm_num [base_load]⟩
  rw [hs]
  simp only [maxList]
  exact max_eq_left (by norm_num)

/-- C7 witness: the series `[1, 2]` has positive maximum `2`, and its
peak-anchored rescale attains maximum exactly `base_load`. -/
theorem scale_to_peak_spec_witness :
    ([(1 : ℚ), 2] ≠ []) ∧ 0 < maxList [(1 : ℚ), 2] ∧
    maxList (scale_to_peak base_load [(1 : ℚ), 2]) = base_load := by
  have hm : maxList [(1 : ℚ), 2] = 2 := by
    simp only [maxList]
    exact max_eq_right (by norm_num)
  refine ⟨by simp, by rw [hm]; norm_num, ?_⟩
  exact (scale_to_peak_spec [(1 : ℚ), 2] (by simp) (by rw [hm]; norm_num)).2.1

/-- C8 (amended): at a timestep where both zone scaling factors are
positive **and both transfer-adjusted zone totals are nonnegative** (with
nonzero divisor `total1 + total2`), the estimated tie flow
`limit·factor/2`, with
`factor = (sf1·total1 + sf2·total2)/(2·(total1 + total2))`, has the same
strict sign as the historical limit.  (As originally stated, without the
nonnegativity of the totals, the claim is false: see the
counterexample.) -/
theorem tie_flow_sign (sf1 sf2 t1 t2 lim : List ℚ) (i : ℕ)
    (s1 s2 k l m p : ℚ)
    (hs1 : sf1[i]? = some s1) (hs2 : sf2[i]? = some s2)
    (ht1 : t1[i]? = some k) (ht2 : t2[i]? = some l)
    (hm : lim[i]? = some m)
    (hp : (p_tie_scaled lim (factor_tie sf1 sf2 t1 t2))[i]? = some p)
    (hs1p : 0 < s1) (hs2p : 0 < s2) (hk : 0 ≤ k) (hl : 0 ≤ l)
    (hkl : k + l ≠ 0) :
    (0 < p ↔ 0 < m) ∧ (p < 0 ↔ m < 0) := by
  have hf : (factor_tie sf1 sf2 t1 t2)[i]?
      = some ((s1 * k + s2 * l) / (2 * (k + l))) := by
    rw [factor_tie]
    exact zipWith4_getElem?_of _ _ _ _ _ i _ _ _ _ hs1 hs2 ht1 ht2
  have hp' : (p_tie_scaled lim (factor_tie sf1 sf2 t1 t2))[i]?
      = some (m * ((s1 * k + s2 * l) / (2 * (k + l))) / 2) := by
    rw [p_tie_scaled]
    exact zipWith_getElem?_of _ _ _ i _ _ hm hf
  rw [hp'] at hp
  obtain rfl := Option.some.inj hp
  have hklpos : 0 < k + l := lt_of_le_of_ne (by linarith) (Ne.symm hkl)
  have hnum : 0 < s1 * k + s2 * l := by
    rcases eq_or_lt_of_le hk with hk0 | hk0
    · rcases eq_or_lt_of_le hl with hl0 | hl0
      · exfalso; apply hkl; rw [← hk0, ← hl0]; ring
      · nlinarith
    · nlinarith
  have hfpos : 0 < (s1 * k + s2 * l) / (2 * (k + l)) :=
    div_pos hnum (by linarith)
  constructor
  · constructor
    · intro h; nlinarith [hfpos]
    · intro h; nlinarith [hfpos]
  · constructor
    · intro h; nlinarith [hfpos]
    · intro h; nlinarith [hfpos]

/-- C8 counterexample to the claim as stated: with positive scaling factors
`sf1 = 10`, `sf2 = 1`, totals `total1 = -1`, `total2 = 2` (nonzero divisor)
and historical limit `1 > 0`, the factor is `-4` and the estimated tie flow
`-2 < 0` — the opposite sign of the limit. -/
theorem tie_flow_sign_counterexample :
    factor_tie [10] [1] [-1] [2] = [-4] ∧
    p_tie_scaled [1] (factor_tie [10] [1] [-1] [2]) = [-2] ∧
    (0 : ℚ) < 10 ∧ (0 : ℚ) < 1 ∧ (-1 : ℚ) + 2 ≠ 0 ∧
    (-2 : ℚ) < 0 ∧ (0 : ℚ) < 1 := by
  have hf : factor_tie [10] [1] [-1] [2] = [-4] := by
    norm_num [factor_tie, zipWith4]
  refine ⟨hf, ?_, by norm_num, by norm_num, by norm_num, by norm_num,
    by norm_num⟩
  rw [hf]
  norm_num [p_tie_scaled]

/-- C8 witness: `sf1 = 2`, `sf2 = 3`, totals `1` and `1`, limit `5`. -/
theorem tie_flow_sign_witness :
    ([(2 : ℚ)][0]? = some 2) ∧ ([(3 : ℚ)][0]? = some 3) ∧
    ([(1 : ℚ)][0]? = some 1) ∧ ([(5 : ℚ)][0]? = some 5) ∧
    (p_tie_scaled [5] (factor_tie [2] [3] [1] [1]))[0]? = some (25/8) ∧
    (0 : ℚ) < 2 ∧ (0 : ℚ) < 3 ∧ (0 : ℚ) ≤ 1 ∧ (1 : ℚ) + 1 ≠ 0 ∧
    ((0 : ℚ) < 25/8 ↔ (0 : ℚ) < 5) := by
  have hp : (p_tie_scaled [5] (factor_tie [2] [3] [1] [1]))[0]?
      = some (25/8) := by
    norm_num [p_tie_scaled, factor_tie, zipWith4]
  refine ⟨by norm_num, by norm_num, by norm_num, by norm_num, hp,
    by norm_num, by norm_num, by norm_num, by norm_num, ?_⟩
  exact (tie_flow_sign [2] [3] [1] [1] [5] 0 2 3 1 1 5 (25/8)
    (by norm_num) (by norm_num) (by norm_num) (by norm_num) (by norm_num) hp
    (by norm_num) (by norm_num) (by norm_num) (by norm_num) (by norm_num)).1

end AcdcDispatch
